import Mathlib

/-!
# Verification of the SceneManager tagged-resource registry and draw-state pipeline

Shallow embedding of `src/SceneManager.cpp` (CS-330 scene manager).

The embedding models:
* the material registry (`OBJECT_MATERIAL`, `FindMaterial`),
* the texture registry (`TEXTURE_INFO`, `CreateGLTexture`, `DestroyGLTextures`,
  `FindTextureID`, `FindTextureSlot`),
* the per-draw uniform-writing operations (`SetTransformations`, `SetShaderColor`,
  `SetShaderTexture`, `SetTextureUVScale`, `SetShaderMaterial`).

External collaborators are made explicit:
* the stb image decoder becomes an `Option StbImage` input (`none` = decode failure);
* OpenGL calls become a trace of `GLEvent`s, and the fresh texture name that
  `glGenTextures` would produce becomes an explicit input;
* the shader-uniform interface becomes a list of `UniformWrite`s produced by each
  operation; the nullable `m_pShaderManager` pointer becomes a `Bool` (`present`),
  and an operation that would dereference a NULL pointer returns `none`.

Float scalars that are only stored and copied (colors, material parameters, UV
scales) are modelled as `ℚ`; the transform matrices, whose trigonometric content
matters, are modelled over `ℝ`.
-/

/-- A three-component vector of (copied-only) float scalars, modelled over `ℚ`
(`glm::vec3` as used by the material registry and color paths). -/
structure Vec3Q where
  x : ℚ
  y : ℚ
  z : ℚ
  deriving DecidableEq, Repr

/-- `OBJECT_MATERIAL` from `SceneManager.h`: a tag plus the five lighting-material
fields that `FindMaterial` copies out. -/
structure OBJECT_MATERIAL where
  ambientColor : Vec3Q
  ambientStrength : ℚ
  diffuseColor : Vec3Q
  specularColor : Vec3Q
  shininess : ℚ
  tag : String
  deriving DecidableEq, Repr

/-- `TEXTURE_INFO` from `SceneManager.h`: a tag and the GL texture name (`GLuint`,
modelled as `Nat`). The 16-slot array plus `m_loadedTextures` count is modelled as
a list in load order (its length is the count). -/
structure TEXTURE_INFO where
  tag : String
  ID : Nat
  deriving DecidableEq, Repr

/-- The body of `FindMaterial`'s while loop: scan in definition order; at the first
entry whose tag matches, copy the five material fields into the output parameter
(the output's `tag` field is never written by the loop) and stop; otherwise advance.
The loop leaves the output parameter untouched when no entry matches. -/
def findMaterialScan : List OBJECT_MATERIAL → String → OBJECT_MATERIAL → OBJECT_MATERIAL
  | [], _, material => material
  | m :: rest, tag, material =>
    if m.tag == tag then
      { material with
        ambientColor := m.ambientColor
        ambientStrength := m.ambientStrength
        diffuseColor := m.diffuseColor
        specularColor := m.specularColor
        shininess := m.shininess }
    else
      findMaterialScan rest tag material

/-- `SceneManager::FindMaterial` (SceneManager.cpp lines 214-241). Takes the
registry `m_objectMaterials`, the tag, and the current contents of the by-reference
output parameter `material`; returns the pair (returned bool, final contents of
`material`). Faithful to the source: if the registry is empty it returns `false`
at once; otherwise it runs the scan loop and then returns `true` unconditionally
(the loop-local `bFound` flag is not returned). -/
def FindMaterial (m_objectMaterials : List OBJECT_MATERIAL) (tag : String)
    (material : OBJECT_MATERIAL) : Bool × OBJECT_MATERIAL :=
  if m_objectMaterials.length == 0 then
    (false, material)
  else
    (true, findMaterialScan m_objectMaterials tag material)

/-- Two's-complement conversion of a C++ `GLuint` (32-bit unsigned) value to `int`
(32-bit signed), as happens when `m_textureIDs[index].ID` is assigned to the local
`int textureID` in `FindTextureID`. -/
def toInt32 (n : Nat) : Int :=
  let m : Nat := n % 2 ^ 32
  if m < 2 ^ 31 then (m : Int) else (m : Int) - 2 ^ 32

/-- The while loop of `SceneManager::FindTextureID` (SceneManager.cpp lines
162-180): scan in registration order; at the first tag match return that entry's
`ID` (converted `GLuint → int`); if the scan runs off the end the initial value
`-1` is returned. -/
def findTextureIDLoop : List TEXTURE_INFO → String → Int
  | [], _ => -1
  | e :: rest, tag =>
    if e.tag == tag then toInt32 e.ID else findTextureIDLoop rest tag

/-- `SceneManager::FindTextureID`. -/
def FindTextureID (m_textureIDs : List TEXTURE_INFO) (tag : String) : Int :=
  findTextureIDLoop m_textureIDs tag

/-- The while loop of `SceneManager::FindTextureSlot` (SceneManager.cpp lines
188-206), with the running `index` threaded explicitly: at the first tag match
return the current index; otherwise increment and continue; `-1` if no match. -/
def findTextureSlotLoop : List TEXTURE_INFO → String → Nat → Int
  | [], _, _ => -1
  | e :: rest, tag, index =>
    if e.tag == tag then (index : Int) else findTextureSlotLoop rest tag (index + 1)

/-- `SceneManager::FindTextureSlot`. -/
def FindTextureSlot (m_textureIDs : List TEXTURE_INFO) (tag : String) : Int :=
  findTextureSlotLoop m_textureIDs tag 0

/-- Texture-parameter names set by `CreateGLTexture` (`glTexParameteri` pname). -/
inductive TexParamName where
  | wrapS
  | wrapT
  | minFilter
  | magFilter
  deriving DecidableEq, Repr

/-- Texture-parameter values set by `CreateGLTexture`. -/
inductive TexParamValue where
  | glRepeat
  | glLinear
  deriving DecidableEq, Repr

/-- Internal pixel formats selected by channel count in `CreateGLTexture`. -/
inductive PixelFormat where
  | rgb8
  | rgba8
  deriving DecidableEq, Repr

/-- One call into the OpenGL / stb collaborators, recorded as a trace event. -/
inductive GLEvent where
  | genTextures (id : Nat)
  | bindTexture (id : Nat)
  | texParameteri (pname : TexParamName) (value : TexParamValue)
  | texImage2D (internalFormat : PixelFormat) (width height : Int)
  | generateMipmap
  | stbiImageFree
  | deleteTextures (id : Nat)
  deriving DecidableEq, Repr

/-- `true` exactly on the events that release a resource: `glDeleteTextures`
releases a GPU texture object. -/
def isReleaseEvent : GLEvent → Bool
  | GLEvent.deleteTextures _ => true
  | _ => false

/-- `true` exactly on the `stbi_image_free` event that releases the decoded
image buffer. -/
def isImageFreeEvent : GLEvent → Bool
  | GLEvent.stbiImageFree => true
  | _ => false

/-- The result of `stbi_load`: raw image metadata (width, height, channel count,
all C++ `int`s). The pixel bytes themselves never influence control flow and are
not modelled. -/
structure StbImage where
  width : Int
  height : Int
  colorChannels : Int
  deriving DecidableEq, Repr

/-- `SceneManager::CreateGLTexture` (SceneManager.cpp lines 60-124).

Inputs: `decoded` is what `stbi_load` returned (`none` = decode failure);
`freshID` is the texture name that `glGenTextures` produces; `tag` the tag;
`m_textureIDs` the registry in load order (paired with `m_loadedTextures` =
its length). Output: (returned bool, new registry, trace of GL/stb calls).

Faithful to the source: on decode failure nothing happens and `false` is
returned; otherwise a texture object is generated, bound and configured
(wrap = repeat, filter = linear); 3 channels upload as RGB8 and 4 channels as
RGBA8, any other channel count returns `false` right away (before the
`stbi_image_free` call, and without touching the registry); on the upload paths
mipmaps are generated, the image buffer is freed, the texture is unbound, the
entry is appended at index `m_loadedTextures` and the count incremented — with
no capacity check of any kind. -/
def CreateGLTexture (decoded : Option StbImage) (freshID : Nat) (tag : String)
    (m_textureIDs : List TEXTURE_INFO) : Bool × List TEXTURE_INFO × List GLEvent :=
  match decoded with
  | none => (false, m_textureIDs, [])
  | some image =>
    let setupEvents : List GLEvent :=
      [GLEvent.genTextures freshID, GLEvent.bindTexture freshID,
       GLEvent.texParameteri TexParamName.wrapS TexParamValue.glRepeat,
       GLEvent.texParameteri TexParamName.wrapT TexParamValue.glRepeat,
       GLEvent.texParameteri TexParamName.minFilter TexParamValue.glLinear,
       GLEvent.texParameteri TexParamName.magFilter TexParamValue.glLinear]
    if image.colorChannels == 3 then
      (true, m_textureIDs ++ [⟨tag, freshID⟩],
       setupEvents ++
         [GLEvent.texImage2D PixelFormat.rgb8 image.width image.height,
          GLEvent.generateMipmap, GLEvent.stbiImageFree, GLEvent.bindTexture 0])
    else if image.colorChannels == 4 then
      (true, m_textureIDs ++ [⟨tag, freshID⟩],
       setupEvents ++
         [GLEvent.texImage2D PixelFormat.rgba8 image.width image.height,
          GLEvent.generateMipmap, GLEvent.stbiImageFree, GLEvent.bindTexture 0])
    else
      (false, m_textureIDs, setupEvents)

/-- The loop of `SceneManager::DestroyGLTextures` (SceneManager.cpp lines
148-154), with the loop index threaded: for each registered entry the source
executes `glGenTextures(1, &m_textureIDs[i].ID)` — generating a fresh texture
name and storing it over the entry's ID. `fresh i` is the name `glGenTextures`
produces on iteration `i`. Returns (updated registry, trace). -/
def destroyGLTexturesLoop : List TEXTURE_INFO → (Nat → Nat) → Nat →
    List TEXTURE_INFO × List GLEvent
  | [], _, _ => ([], [])
  | e :: rest, fresh, i =>
    let r := destroyGLTexturesLoop rest fresh (i + 1)
    ({ e with ID := fresh i } :: r.1, GLEvent.genTextures (fresh i) :: r.2)

/-- `SceneManager::DestroyGLTextures`. -/
def DestroyGLTextures (m_textureIDs : List TEXTURE_INFO) (fresh : Nat → Nat) :
    List TEXTURE_INFO × List GLEvent :=
  destroyGLTexturesLoop m_textureIDs fresh 0

/-- A real-valued three-component vector (`glm::vec3` on the transform path). -/
structure Vec3R where
  x : ℝ
  y : ℝ
  z : ℝ

/-- `glm::radians`: degrees to radians. -/
noncomputable def radians (degrees : ℝ) : ℝ :=
  degrees * (Real.pi / 180)

/-- `glm::length` of a vec3. -/
noncomputable def glmLength (v : Vec3R) : ℝ :=
  Real.sqrt (v.x * v.x + v.y * v.y + v.z * v.z)

/-- `glm::normalize` of a vec3: the vector divided by its length. -/
noncomputable def glmNormalize (v : Vec3R) : Vec3R :=
  ⟨v.x / glmLength v, v.y / glmLength v, v.z / glmLength v⟩

/-- `glm::scale(v)`: the 4×4 scaling matrix with `v` on the diagonal. -/
noncomputable def glmScale (v : Vec3R) : Matrix (Fin 4) (Fin 4) ℝ :=
  !![v.x, 0, 0, 0;
     0, v.y, 0, 0;
     0, 0, v.z, 0;
     0, 0, 0, 1]

/-- `glm::translate(v)`: the identity with `v` in the last column. -/
noncomputable def glmTranslate (v : Vec3R) : Matrix (Fin 4) (Fin 4) ℝ :=
  !![1, 0, 0, v.x;
     0, 1, 0, v.y;
     0, 0, 1, v.z;
     0, 0, 0, 1]

/-- `glm::rotate(angle, v)` from `glm/gtx/transform.hpp`: normalizes the axis and
builds the Rodrigues rotation matrix, exactly as `glm::rotate(mat4(1), angle, v)`
does in `matrix_transform.inl` (glm stores column-major, `m[col][row]`; the entries
below are the mathematical `M(row, col) = Rotate[col][row]`). -/
noncomputable def glmRotate (angle : ℝ) (v : Vec3R) : Matrix (Fin 4) (Fin 4) ℝ :=
  let c := Real.cos angle
  let s := Real.sin angle
  let axis := glmNormalize v
  let temp : Vec3R := ⟨(1 - c) * axis.x, (1 - c) * axis.y, (1 - c) * axis.z⟩
  !![c + temp.x * axis.x, temp.y * axis.x - s * axis.z, temp.z * axis.x + s * axis.y, 0;
     temp.x * axis.y + s * axis.z, c + temp.y * axis.y, temp.z * axis.y - s * axis.x, 0;
     temp.x * axis.z - s * axis.y, temp.y * axis.z + s * axis.x, c + temp.z * axis.z, 0;
     0, 0, 0, 1]

/-- The model matrix computed inside `SceneManager::SetTransformations`
(SceneManager.cpp lines 256-273): scale, the three per-axis rotations (degrees
converted to radians; axes (1,0,0), (0,1,0), (0,0,1)) and translation, combined
as `modelView = translation * rotationX * rotationY * rotationZ * scale`. -/
noncomputable def modelViewMatrix (scaleXYZ : Vec3R)
    (XrotationDegrees YrotationDegrees ZrotationDegrees : ℝ)
    (positionXYZ : Vec3R) : Matrix (Fin 4) (Fin 4) ℝ :=
  let scale := glmScale scaleXYZ
  let rotationX := glmRotate (radians XrotationDegrees) ⟨1, 0, 0⟩
  let rotationY := glmRotate (radians YrotationDegrees) ⟨0, 1, 0⟩
  let rotationZ := glmRotate (radians ZrotationDegrees) ⟨0, 0, 1⟩
  let translation := glmTranslate positionXYZ
  translation * rotationX * rotationY * rotationZ * scale

/-- A value pushed through the shader-uniform interface. -/
inductive UniformValue where
  | i (value : Int)
  | f (value : ℚ)
  | v2 (u v : ℚ)
  | v3 (value : Vec3Q)
  | v4 (r g b a : ℚ)
  | sampler (slot : Int)
  | m4 (value : Matrix (Fin 4) (Fin 4) ℝ)

/-- One named uniform write (`ShaderManager::set*Value` call). -/
def UniformWrite : Type := String × UniformValue

/-- The uniform names from the anonymous namespace of SceneManager.cpp. -/
def g_ModelName : String := "model"

/-- Uniform name for the object base color. -/
def g_ColorValueName : String := "objectColor"

/-- Uniform name for the texture sampler. -/
def g_TextureValueName : String := "objectTexture"

/-- Uniform name for the use-texture flag. -/
def g_UseTextureName : String := "bUseTexture"

/-- `SceneManager::SetTransformations` (SceneManager.cpp lines 249-279).
`present` models `m_pShaderManager != NULL`. The matrices are always computed;
the guarded push writes the composed model matrix to the `"model"` uniform only
when the pointer is non-NULL (a NULL pointer means no shader-state effect, not a
crash: the dereference sits inside the guard). -/
noncomputable def SetTransformations (present : Bool) (scaleXYZ : Vec3R)
    (XrotationDegrees YrotationDegrees ZrotationDegrees : ℝ)
    (positionXYZ : Vec3R) : Option (List UniformWrite) :=
  if present then
    some [(g_ModelName, UniformValue.m4 (modelViewMatrix scaleXYZ
      XrotationDegrees YrotationDegrees ZrotationDegrees positionXYZ))]
  else
    some []

/-- `SceneManager::SetShaderColor` (SceneManager.cpp lines 287-306): under the
non-NULL guard, writes the use-texture flag to `false` (the C++ `bool` is passed
to `setIntValue`, so it arrives as the int 0) and then the RGBA color. -/
def SetShaderColor (present : Bool) (redColorValue greenColorValue blueColorValue
    alphaValue : ℚ) : Option (List UniformWrite) :=
  if present then
    some [(g_UseTextureName, UniformValue.i 0),
          (g_ColorValueName,
           UniformValue.v4 redColorValue greenColorValue blueColorValue alphaValue)]
  else
    some []

/-- `SceneManager::SetShaderTexture` (SceneManager.cpp lines 314-325): under the
non-NULL guard, enables the use-texture flag (int 1), resolves the tag via
`FindTextureSlot` into the local `int textureID` (initialized to -1), and writes
that value verbatim as the sampler uniform. -/
def SetShaderTexture (present : Bool) (m_textureIDs : List TEXTURE_INFO)
    (textureTag : String) : Option (List UniformWrite) :=
  if present then
    some [(g_UseTextureName, UniformValue.i 1),
          (g_TextureValueName, UniformValue.sampler (FindTextureSlot m_textureIDs textureTag))]
  else
    some []

/-- `SceneManager::SetTextureUVScale` (SceneManager.cpp lines 333-339). -/
def SetTextureUVScale (present : Bool) (u v : ℚ) : Option (List UniformWrite) :=
  if present then
    some [("UVscale", UniformValue.v2 u v)]
  else
    some []

/-- `SceneManager::SetShaderMaterial` (SceneManager.cpp lines 347-365). `present`
models `m_pShaderManager != NULL`; `localMaterial` models the contents of the
uninitialized stack variable `OBJECT_MATERIAL material`. If the registry is
non-empty, `FindMaterial` is called and, when it reports `true`, the five
material uniforms are written through `m_pShaderManager` WITHOUT any NULL
check — dereferencing a NULL pointer is modelled as `none`. -/
def SetShaderMaterial (present : Bool) (m_objectMaterials : List OBJECT_MATERIAL)
    (materialTag : String) (localMaterial : OBJECT_MATERIAL) :
    Option (List UniformWrite) :=
  if m_objectMaterials.length > 0 then
    let r := FindMaterial m_objectMaterials materialTag localMaterial
    if r.1 then
      if present then
        some [("material.ambientColor", UniformValue.v3 r.2.ambientColor),
              ("material.ambientStrength", UniformValue.f r.2.ambientStrength),
              ("material.diffuseColor", UniformValue.v3 r.2.diffuseColor),
              ("material.specularColor", UniformValue.v3 r.2.specularColor),
              ("material.shininess", UniformValue.f r.2.shininess)]
      else
        none
    else
      some []
  else
    some []

/-! ## Spec-side definitions

These follow the wording of the specification (for refinement comparisons),
not the source. -/

/-- Spec: the rotation matrix about the world X axis by angle `θ` (radians). -/
noncomputable def specRotationX (θ : ℝ) : Matrix (Fin 4) (Fin 4) ℝ :=
  !![1, 0, 0, 0;
     0, Real.cos θ, -Real.sin θ, 0;
     0, Real.sin θ, Real.cos θ, 0;
     0, 0, 0, 1]

/-- Spec: the rotation matrix about the world Y axis by angle `θ` (radians). -/
noncomputable def specRotationY (θ : ℝ) : Matrix (Fin 4) (Fin 4) ℝ :=
  !![Real.cos θ, 0, Real.sin θ, 0;
     0, 1, 0, 0;
     -Real.sin θ, 0, Real.cos θ, 0;
     0, 0, 0, 1]

/-- Spec: the rotation matrix about the world Z axis by angle `θ` (radians). -/
noncomputable def specRotationZ (θ : ℝ) : Matrix (Fin 4) (Fin 4) ℝ :=
  !![Real.cos θ, -Real.sin θ, 0, 0;
     Real.sin θ, Real.cos θ, 0, 0;
     0, 0, 1, 0;
     0, 0, 0, 1]

/-- Spec: the translation matrix moving the origin to `p`. -/
noncomputable def specTranslation (p : Vec3R) : Matrix (Fin 4) (Fin 4) ℝ :=
  !![1, 0, 0, p.x;
     0, 1, 0, p.y;
     0, 0, 1, p.z;
     0, 0, 0, 1]

/-- Spec: the axis-aligned scaling matrix with factors `s`. -/
noncomputable def specScale (s : Vec3R) : Matrix (Fin 4) (Fin 4) ℝ :=
  !![s.x, 0, 0, 0;
     0, s.y, 0, 0;
     0, 0, s.z, 0;
     0, 0, 0, 1]

/-- Spec: the slot returned by `ResolveSlot` — the index of the first entry (in
registration order) whose tag matches, or the sentinel `-1`. -/
def specFirstMatchSlot (regs : List TEXTURE_INFO) (tag : String) : Int :=
  match regs.findIdx? (fun e => e.tag == tag) with
  | some i => (i : Int)
  | none => -1

/-! ## Helper lemmas -/

/-- `glm::rotate` about the unit X axis is the standard X-axis rotation matrix. -/
theorem glmRotate_unitX (θ : ℝ) : glmRotate θ ⟨1, 0, 0⟩ = specRotationX θ := by
  unfold glmRotate specRotationX glmNormalize glmLength
  norm_num [Real.sqrt_one]

/-- `glm::rotate` about the unit Y axis is the standard Y-axis rotation matrix. -/
theorem glmRotate_unitY (θ : ℝ) : glmRotate θ ⟨0, 1, 0⟩ = specRotationY θ := by
  unfold glmRotate specRotationY glmNormalize glmLength
  norm_num [Real.sqrt_one]

/-- `glm::rotate` about the unit Z axis is the standard Z-axis rotation matrix. -/
theorem glmRotate_unitZ (θ : ℝ) : glmRotate θ ⟨0, 0, 1⟩ = specRotationZ θ := by
  unfold glmRotate specRotationZ glmNormalize glmLength
  norm_num [Real.sqrt_one]

/-- `glm::translate` agrees with the spec's translation matrix. -/
theorem glmTranslate_eq_spec (p : Vec3R) : glmTranslate p = specTranslation p := rfl

/-- `glm::scale` agrees with the spec's scaling matrix. -/
theorem glmScale_eq_spec (s : Vec3R) : glmScale s = specScale s := rfl

/-- Sample registry entry: the `redKick` material from `DefineObjectMaterials`
(SceneManager.cpp lines 469-476). -/
def redKickMaterial : OBJECT_MATERIAL :=
  { ambientColor := ⟨0.2, 0.2, 0.1⟩
    ambientStrength := 0.4
    diffuseColor := ⟨0.3, 0.3, 0.2⟩
    specularColor := ⟨0.6, 0.5, 0.4⟩
    shininess := 22
    tag := "redKick" }

/-- A stand-in concrete value for the uninitialized local `OBJECT_MATERIAL`. -/
def blankMaterial : OBJECT_MATERIAL :=
  { ambientColor := ⟨0, 0, 0⟩
    ambientStrength := 0
    diffuseColor := ⟨0, 0, 0⟩
    specularColor := ⟨0, 0, 0⟩
    shininess := 0
    tag := "" }

/-- A registry of `n` distinct loaded textures (tags `"0"`, `"1"`, …). -/
def mkRegs (n : Nat) : List TEXTURE_INFO :=
  (List.range n).map fun i => ⟨toString i, i + 1⟩

/-! ## Claim theorems -/

/-- **C1.** For every scale vector, per-axis rotation angles in degrees, and
position vector, the model matrix computed by `SetTransformations` equals
`Translation × RotationX × RotationY × RotationZ × Scale`, each rotation built
independently around its own world axis from the angle converted to radians,
and it is this product (translation outermost, scale innermost) that is pushed
to the model-matrix uniform. -/
theorem C1_setTransformations_composition (s : Vec3R) (xr yr zr : ℝ) (p : Vec3R) :
    modelViewMatrix s xr yr zr p =
      specTranslation p * specRotationX (radians xr) * specRotationY (radians yr) *
        specRotationZ (radians zr) * specScale s ∧
    SetTransformations true s xr yr zr p =
      some [(g_ModelName, UniformValue.m4
        (specTranslation p * specRotationX (radians xr) * specRotationY (radians yr) *
          specRotationZ (radians zr) * specScale s))] := by
  have h : modelViewMatrix s xr yr zr p =
      specTranslation p * specRotationX (radians xr) * specRotationY (radians yr) *
        specRotationZ (radians zr) * specScale s := by
    unfold modelViewMatrix
    rw [glmRotate_unitX, glmRotate_unitY, glmRotate_unitZ, glmTranslate_eq_spec,
      glmScale_eq_spec]
  refine ⟨h, ?_⟩
  unfold SetTransformations
  rw [if_pos rfl, h]

/-- **C2** (code_bug evaluation). The claim states `FindMaterial` returns
`found = true` exactly when some entry's tag matches. The code does return
not-found on an empty registry, but on a non-empty registry it returns `true`
unconditionally (its final statement is `return(true)`, ignoring the loop's
`bFound` flag): with the one-entry registry `[redKickMaterial]` and the
unmatched tag `"missing"` it returns `(true, material-unchanged)` for every
initial value of the output parameter. -/
theorem C2_findMaterial_true_without_match :
    (∀ m ∈ [redKickMaterial], m.tag ≠ "missing") ∧
    (∀ tag g, FindMaterial [] tag g = (false, g)) ∧
    (∀ g, FindMaterial [redKickMaterial] "missing" g = (true, g)) :=
  ⟨by decide, fun _ _ => rfl, fun _ => rfl⟩

/-- **C3** (code_bug evaluation). The claim states that when no registry entry
matches the tag, `SetShaderMaterial` writes no uniforms. Because `FindMaterial`
reports `true` for every non-empty registry, the code takes the found branch
anyway and writes all five material uniforms from the *uninitialized* local
`OBJECT_MATERIAL` (modelled by `garbage`): with registry `[redKickMaterial]`
and unmatched tag `"missing"`, five uniform writes happen. The matched case
(exactly the five fields of the matching entry) does behave as claimed. -/
theorem C3_setShaderMaterial_writes_on_unmatched_tag :
    redKickMaterial.tag ≠ "missing" ∧
    (∀ garbage, SetShaderMaterial true [redKickMaterial] "missing" garbage =
      some [("material.ambientColor", UniformValue.v3 garbage.ambientColor),
            ("material.ambientStrength", UniformValue.f garbage.ambientStrength),
            ("material.diffuseColor", UniformValue.v3 garbage.diffuseColor),
            ("material.specularColor", UniformValue.v3 garbage.specularColor),
            ("material.shininess", UniformValue.f garbage.shininess)]) ∧
    (∀ garbage, SetShaderMaterial true [redKickMaterial] "redKick" garbage =
      some [("material.ambientColor", UniformValue.v3 redKickMaterial.ambientColor),
            ("material.ambientStrength", UniformValue.f redKickMaterial.ambientStrength),
            ("material.diffuseColor", UniformValue.v3 redKickMaterial.diffuseColor),
            ("material.specularColor", UniformValue.v3 redKickMaterial.specularColor),
            ("material.shininess", UniformValue.f redKickMaterial.shininess)]) :=
  ⟨by decide, fun _ => rfl, fun _ => rfl⟩

/-- **C4** (code_bug evaluation). The claim states a 17th load on a full 16-slot
registry fails with `CapacityExceededError` and the count stays 16.
`CreateGLTexture` contains no capacity check at all: with 16 textures already
registered, a 17th load of a valid 3-channel image returns `true` and the count
becomes 17 (in the C++ this writes past the end of the fixed 16-element
`m_textureIDs` array). -/
theorem C4_no_capacity_check :
    (mkRegs 16).length = 16 ∧
    (CreateGLTexture (some ⟨2, 2, 3⟩) 17 "seventeenth" (mkRegs 16)).1 = true ∧
    ((CreateGLTexture (some ⟨2, 2, 3⟩) 17 "seventeenth" (mkRegs 16)).2.1).length = 17 := by
  decide

/-- Helper for C5: the destroy loop emits one `glGenTextures` call per entry and
never a release. -/
theorem destroyGLTexturesLoop_events (l : List TEXTURE_INFO) (fresh : Nat → Nat) :
    ∀ i, (destroyGLTexturesLoop l fresh i).2.countP isReleaseEvent = 0 ∧
      (destroyGLTexturesLoop l fresh i).2.length = l.length := by
  induction l with
  | nil => intro i; exact ⟨rfl, rfl⟩
  | cons e rest ih =>
    intro i
    have h := ih (i + 1)
    simp only [destroyGLTexturesLoop, List.countP_cons, List.length_cons]
    constructor
    · simp [isReleaseEvent, h.1]
    · simp [h.2]

/-- **C5** (code_bug evaluation). The claim states teardown releases every GPU
texture object (one release per registered entry). `DestroyGLTextures` instead
calls `glGenTextures` in its loop: its trace contains zero release events while
having one (generate!) event per entry; on a concrete one-entry registry the
trace is a single `glGenTextures` call and the entry's handle is overwritten
with the fresh name. -/
theorem C5_destroy_releases_nothing :
    (∀ regs fresh, (DestroyGLTextures regs fresh).2.countP isReleaseEvent = 0 ∧
      (DestroyGLTextures regs fresh).2.length = regs.length) ∧
    DestroyGLTextures [⟨"floor", 5⟩] (fun i => 100 + i) =
      ([⟨"floor", 100⟩], [GLEvent.genTextures 100]) :=
  ⟨fun regs fresh => destroyGLTexturesLoop_events regs fresh 0, rfl⟩

/-- **C6** (code_bug evaluation). The claim states that whenever the image decode
succeeds, the decoded buffer is released before the call returns on every path.
On the success path (3 channels) the trace indeed contains exactly one
`stbi_image_free`; but on the unsupported-channel-count path (here 2 channels)
the code returns `false` before ever reaching `stbi_image_free`: the trace
contains no free event, leaking the buffer. -/
theorem C6_image_buffer_leak_on_unsupported_channels :
    ∀ (w h : Int) (id : Nat) (tag : String) (regs : List TEXTURE_INFO),
      (CreateGLTexture (some ⟨w, h, 3⟩) id tag regs).2.2.countP isImageFreeEvent = 1 ∧
      (CreateGLTexture (some ⟨w, h, 2⟩) id tag regs).1 = false ∧
      (CreateGLTexture (some ⟨w, h, 2⟩) id tag regs).2.2.countP isImageFreeEvent = 0 := by
  intro w h id tag regs
  refine ⟨rfl, rfl, rfl⟩

/-- **C7.** For every decoded image whose channel count is neither 3 nor 4,
`CreateGLTexture` returns failure and the texture registry is unchanged: no
`TEXTURE_INFO` is appended and the registered count keeps its prior value. -/
theorem C7_unsupported_channels_no_registration (img : StbImage) (id : Nat)
    (tag : String) (regs : List TEXTURE_INFO)
    (h3 : img.colorChannels ≠ 3) (h4 : img.colorChannels ≠ 4) :
    (CreateGLTexture (some img) id tag regs).1 = false ∧
    (CreateGLTexture (some img) id tag regs).2.1 = regs := by
  have e3 : (img.colorChannels == 3) = false := beq_eq_false_iff_ne.mpr h3
  have e4 : (img.colorChannels == 4) = false := beq_eq_false_iff_ne.mpr h4
  simp [CreateGLTexture, e3, e4]

/-- Witness for C7 at a concrete 2-channel image. -/
theorem C7_witness :
    (CreateGLTexture (some ⟨8, 8, 2⟩) 7 "gray" [⟨"floor", 1⟩]).1 = false ∧
    (CreateGLTexture (some ⟨8, 8, 2⟩) 7 "gray" [⟨"floor", 1⟩]).2.1 = [⟨"floor", 1⟩] :=
  C7_unsupported_channels_no_registration ⟨8, 8, 2⟩ 7 "gray" [⟨"floor", 1⟩]
    (by decide) (by decide)

/-- Helper for C8: the slot-scan loop returns `-1` when no entry's tag matches. -/
theorem findTextureSlotLoop_not_found (tag : String) :
    ∀ (l : List TEXTURE_INFO), (∀ e ∈ l, e.tag ≠ tag) →
      ∀ i, findTextureSlotLoop l tag i = -1 := by
  intro l
  induction l with
  | nil => intro _ _; rfl
  | cons e rest ih =>
    intro h i
    have he : (e.tag == tag) = false :=
      beq_eq_false_iff_ne.mpr (h e (List.mem_cons_self e rest))
    simp only [findTextureSlotLoop, he, Bool.false_eq_true, if_false]
    exact ih (fun x hx => h x (List.mem_cons_of_mem e hx)) (i + 1)

/-- Helper for C8: the ID-scan loop returns `-1` when no entry's tag matches. -/
theorem findTextureIDLoop_not_found (tag : String) :
    ∀ (l : List TEXTURE_INFO), (∀ e ∈ l, e.tag ≠ tag) →
      findTextureIDLoop l tag = -1 := by
  intro l
  induction l with
  | nil => intro _; rfl
  | cons e rest ih =>
    intro h
    have he : (e.tag == tag) = false :=
      beq_eq_false_iff_ne.mpr (h e (List.mem_cons_self e rest))
    simp only [findTextureIDLoop, he, Bool.false_eq_true, if_false]
    exact ih (fun x hx => h x (List.mem_cons_of_mem e hx))

/-- **C8.** For every tag not present in the texture registry, `FindTextureSlot`
and `FindTextureID` return the not-found sentinel `-1` without failing, and
`SetShaderTexture` (with the shader present) writes that sentinel slot value
verbatim to the sampler uniform while still enabling the use-texture flag —
the call completes normally instead of aborting the draw. -/
theorem C8_not_found_sentinel (regs : List TEXTURE_INFO) (tag : String)
    (h : ∀ e ∈ regs, e.tag ≠ tag) :
    FindTextureSlot regs tag = -1 ∧ FindTextureID regs tag = -1 ∧
    SetShaderTexture true regs tag =
      some [(g_UseTextureName, UniformValue.i 1),
            (g_TextureValueName, UniformValue.sampler (-1))] := by
  have hs : FindTextureSlot regs tag = -1 := findTextureSlotLoop_not_found tag regs h 0
  refine ⟨hs, findTextureIDLoop_not_found tag regs h, ?_⟩
  unfold SetShaderTexture
  rw [if_pos rfl, hs]

/-- Witness for C8 at a concrete registry and unmatched tag. -/
theorem C8_witness :
    FindTextureSlot [⟨"floor", 1⟩] "missing" = -1 ∧
    FindTextureID [⟨"floor", 1⟩] "missing" = -1 ∧
    SetShaderTexture true [⟨"floor", 1⟩] "missing" =
      some [(g_UseTextureName, UniformValue.i 1),
            (g_TextureValueName, UniformValue.sampler (-1))] :=
  C8_not_found_sentinel [⟨"floor", 1⟩] "missing" (by decide)

/-- Helper for C9: the slot-scan loop computes `List.findIdx?` with start index
`i` (first match in registration order), with `-1` for no match. -/
theorem findTextureSlotLoop_eq_findIdx? (tag : String) :
    ∀ (l : List TEXTURE_INFO) (i : Nat),
      findTextureSlotLoop l tag i =
        match l.findIdx? (fun e => e.tag == tag) i with
        | some j => (j : Int)
        | none => -1 := by
  intro l
  induction l with
  | nil => intro i; rfl
  | cons e rest ih =>
    intro i
    rcases he : (e.tag == tag) with _ | _
    · simp only [findTextureSlotLoop, he, Bool.false_eq_true, if_false,
        List.findIdx?_cons]
      exact ih (i + 1)
    · simp only [findTextureSlotLoop, he, if_true, List.findIdx?_cons]

/-- Helper for C9: appending a fresh-tagged entry to a registry with no matching
tag makes the slot scan find it at position `start + length`. -/
theorem findTextureSlotLoop_append_fresh (tag : String) (id : Nat) :
    ∀ (l : List TEXTURE_INFO), (∀ e ∈ l, e.tag ≠ tag) →
      ∀ i, findTextureSlotLoop (l ++ [⟨tag, id⟩]) tag i = ((i + l.length : Nat) : Int) := by
  intro l
  induction l with
  | nil =>
    intro _ i
    simp [findTextureSlotLoop]
  | cons e rest ih =>
    intro h i
    have he : (e.tag == tag) = false :=
      beq_eq_false_iff_ne.mpr (h e (List.mem_cons_self e rest))
    simp only [List.cons_append, findTextureSlotLoop, he, Bool.false_eq_true, if_false,
      List.append_eq]
    rw [ih (fun x hx => h x (List.mem_cons_of_mem e hx)) (i + 1)]
    simp only [List.length_cons]
    omega

/-- Helper for C9: appending a fresh-tagged entry makes the ID scan return that
entry's handle (converted `GLuint → int`). -/
theorem findTextureIDLoop_append_fresh (tag : String) (id : Nat) :
    ∀ (l : List TEXTURE_INFO), (∀ e ∈ l, e.tag ≠ tag) →
      findTextureIDLoop (l ++ [⟨tag, id⟩]) tag = toInt32 id := by
  intro l
  induction l with
  | nil =>
    simp [findTextureIDLoop]
  | cons e rest ih =>
    intro h
    have he : (e.tag == tag) = false :=
      beq_eq_false_iff_ne.mpr (h e (List.mem_cons_self e rest))
    simp only [List.cons_append, findTextureIDLoop, he, Bool.false_eq_true, if_false]
    exact ih (fun x hx => h x (List.mem_cons_of_mem e hx))

/-- Helper for C9: a load whose decode produced 3 or 4 channels succeeds and
appends exactly one entry (tag, fresh handle) at the end of the registry. -/
theorem createGLTexture_success (img : StbImage) (id : Nat) (tag : String)
    (regs : List TEXTURE_INFO) (h : img.colorChannels = 3 ∨ img.colorChannels = 4) :
    (CreateGLTexture (some img) id tag regs).1 = true ∧
    (CreateGLTexture (some img) id tag regs).2.1 = regs ++ [⟨tag, id⟩] := by
  rcases h with h | h <;> simp [CreateGLTexture, h]

/-- Helper for C9: a GL texture name in `(0, 2^32)` stays non-zero under the
`GLuint → int` conversion. -/
theorem toInt32_ne_zero (n : Nat) (h0 : 0 < n) (h32 : n < 2 ^ 32) : toInt32 n ≠ 0 := by
  unfold toInt32
  dsimp only
  rw [Nat.mod_eq_of_lt h32]
  split <;> omega

/-- **C9.** `FindTextureSlot` scans entries in registration order and returns the
index of the first entry whose tag matches (refinement against
`specFirstMatchSlot`); and after a successful load of a tag not previously
registered, resolving that tag yields the entry's load-order position, which
lies in `[0, loadedCount)`, while `FindTextureID` returns the non-zero GPU
handle stored there. -/
theorem C9_first_match_and_post_load (regs : List TEXTURE_INFO) (tag : String) :
    FindTextureSlot regs tag = specFirstMatchSlot regs tag ∧
    (∀ (img : StbImage) (handle : Nat),
      (∀ e ∈ regs, e.tag ≠ tag) →
      img.colorChannels = 3 ∨ img.colorChannels = 4 →
      0 < handle → handle < 2 ^ 32 →
      (CreateGLTexture (some img) handle tag regs).1 = true ∧
      FindTextureSlot (CreateGLTexture (some img) handle tag regs).2.1 tag =
        (regs.length : Int) ∧
      0 ≤ FindTextureSlot (CreateGLTexture (some img) handle tag regs).2.1 tag ∧
      FindTextureSlot (CreateGLTexture (some img) handle tag regs).2.1 tag <
        (((CreateGLTexture (some img) handle tag regs).2.1).length : Int) ∧
      FindTextureID (CreateGLTexture (some img) handle tag regs).2.1 tag =
        toInt32 handle ∧
      toInt32 handle ≠ 0) := by
  constructor
  · exact findTextureSlotLoop_eq_findIdx? tag regs 0
  · intro img handle hfresh hch h0 h32
    obtain ⟨hok, hreg⟩ := createGLTexture_success img handle tag regs hch
    have hslot : FindTextureSlot (CreateGLTexture (some img) handle tag regs).2.1 tag =
        (regs.length : Int) := by
      rw [hreg]
      have := findTextureSlotLoop_append_fresh tag handle regs hfresh 0
      simpa [FindTextureSlot] using this
    have hlen : (((CreateGLTexture (some img) handle tag regs).2.1).length : Int) =
        (regs.length : Int) + 1 := by
      rw [hreg]; simp
    refine ⟨hok, hslot, ?_, ?_, ?_, toInt32_ne_zero handle h0 h32⟩
    · rw [hslot]; exact Int.ofNat_nonneg regs.length
    · rw [hslot, hlen]; omega
    · rw [hreg]
      exact findTextureIDLoop_append_fresh tag handle regs hfresh

/-- Witness for C9 at a concrete registry, fresh tag, 4-channel image and
handle 2. -/
theorem C9_witness :
    FindTextureSlot [⟨"floor", 1⟩] "kickstand" =
      specFirstMatchSlot [⟨"floor", 1⟩] "kickstand" ∧
    (CreateGLTexture (some ⟨2, 2, 4⟩) 2 "kickstand" [⟨"floor", 1⟩]).1 = true ∧
    FindTextureSlot (CreateGLTexture (some ⟨2, 2, 4⟩) 2 "kickstand" [⟨"floor", 1⟩]).2.1
      "kickstand" = (([⟨"floor", 1⟩] : List TEXTURE_INFO).length : Int) ∧
    0 ≤ FindTextureSlot
      (CreateGLTexture (some ⟨2, 2, 4⟩) 2 "kickstand" [⟨"floor", 1⟩]).2.1 "kickstand" ∧
    FindTextureSlot (CreateGLTexture (some ⟨2, 2, 4⟩) 2 "kickstand" [⟨"floor", 1⟩]).2.1
      "kickstand" <
      (((CreateGLTexture (some ⟨2, 2, 4⟩) 2 "kickstand" [⟨"floor", 1⟩]).2.1).length : Int) ∧
    FindTextureID (CreateGLTexture (some ⟨2, 2, 4⟩) 2 "kickstand" [⟨"floor", 1⟩]).2.1
      "kickstand" = toInt32 2 ∧
    toInt32 2 ≠ 0 :=
  ⟨(C9_first_match_and_post_load [⟨"floor", 1⟩] "kickstand").1,
   (C9_first_match_and_post_load [⟨"floor", 1⟩] "kickstand").2 ⟨2, 2, 4⟩ 2
     (by decide) (Or.inr rfl) (by decide) (by decide)⟩

/-- **C10.** Every shader-uniform-writing operation among `SetTransformations`,
`SetShaderColor`, `SetShaderTexture` and `SetTextureUVScale` guards on the
shader-manager pointer and is a complete no-op on the shader state when that
pointer is NULL (`present = false` yields `some []`: no writes, no crash);
`SetShaderMaterial` lacks this guard: with a NULL pointer and any non-empty
material registry it dereferences the NULL pointer (modelled as `none`). -/
theorem C10_null_shader_guard (s : Vec3R) (xr yr zr : ℝ) (p : Vec3R)
    (r g b a u v : ℚ) (regs : List TEXTURE_INFO) (texTag : String) :
    SetTransformations false s xr yr zr p = some [] ∧
    SetShaderColor false r g b a = some [] ∧
    SetShaderTexture false regs texTag = some [] ∧
    SetTextureUVScale false u v = some [] ∧
    (∀ (mats : List OBJECT_MATERIAL) (matTag : String) (garbage : OBJECT_MATERIAL),
      mats ≠ [] → SetShaderMaterial false mats matTag garbage = none) := by
  refine ⟨rfl, rfl, rfl, rfl, ?_⟩
  intro mats matTag garbage h
  cases mats with
  | nil => exact absurd rfl h
  | cons m rest => simp [SetShaderMaterial, FindMaterial]

/-- Witness for C10 at concrete inputs, with a one-entry material registry. -/
theorem C10_witness :
    SetTransformations false ⟨1, 1, 1⟩ 0 0 0 ⟨0, 0, 0⟩ = some [] ∧
    SetShaderColor false 1 1 1 1 = some [] ∧
    SetShaderTexture false [⟨"floor", 1⟩] "floor" = some [] ∧
    SetTextureUVScale false 2 2 = some [] ∧
    SetShaderMaterial false [redKickMaterial] "redKick" blankMaterial = none := by
  have h := C10_null_shader_guard ⟨1, 1, 1⟩ 0 0 0 ⟨0, 0, 0⟩ 1 1 1 1 2 2
    [⟨"floor", 1⟩] "floor"
  exact ⟨h.1, h.2.1, h.2.2.1, h.2.2.2.1,
    h.2.2.2.2 [redKickMaterial] "redKick" blankMaterial (by decide)⟩
